import Mathlib

/-!
Verification of the filflo-flipkart-bot core against its source.

The development shallowly embeds the two engine files of the repository:

* src/utils/xls-merger.js - the schema flattening / merging of downloaded
  purchase-order spreadsheets (flattenPoData, extractPoMetadata,
  flattenAndMergePoFiles);
* src/tasks/flipkart/download-po.js - the pagination and per-row download
  orchestration (hasNextPage, goToNextPage, downloadPOsFromCurrentPage,
  downloadAllPOsAcrossPages) and the zero-download early return of run().

Spreadsheet cells (JavaScript values produced by sheet_to_json with
header:1) are modelled by the Cell type: numbers, strings, and undefined
holes. JavaScript numbers are modelled by Int: every predicate the source
applies to a number cell (typeof check, truthiness, decimal rendering for
substring tests) behaves identically on integers. Effectful browser calls
are modelled by passing their observed outcomes (page text, whether a
clickable control was found, the fingerprint seen at each poll, the rows
present on each page and whether each row's download succeeds) as explicit
arguments.
-/

namespace Filflo

/-- A spreadsheet cell as seen by the JavaScript code: a number, a string,
or an undefined hole in a sparse row. -/
inductive Cell where
  | num (n : Int)
  | str (s : String)
  | empty
deriving DecidableEq, Repr

/-- One parsed spreadsheet row. -/
abbrev Row := List Cell

/-- One parsed sheet: XLSX.utils.sheet_to_json(sheet, header 1). -/
abbrev Grid := List Row

/-- JavaScript truthiness of a cell: 0, the empty string and undefined are
falsy, everything else truthy. -/
def Cell.truthy : Cell → Bool
  | .num n => n != 0
  | .str s => s != ""
  | .empty => false

/-- JavaScript String(cell) as used by the terminal-marker test. -/
def Cell.toJsString : Cell → String
  | .num n => toString n
  | .str s => s
  | .empty => "undefined"

/-- JavaScript nextCell-or-empty-string: the idiom x or-else two quotes. -/
def orEmptyStr (c : Cell) : Cell :=
  if c.truthy then c else .str ""

/-- The whitespace class used for the JavaScript regex class backslash-s
and for String.prototype.trim (ASCII part; the inputs here are ASCII). -/
def isSpaceChar (c : Char) : Bool :=
  c = ' ' || c = '\t' || c = '\n' || c = '\r' || c = '\x0b' || c = '\x0c'

/-- JavaScript s.trim() on the character list of s. -/
def jsTrim (cs : List Char) : List Char :=
  ((cs.dropWhile isSpaceChar).reverse.dropWhile isSpaceChar).reverse

/-- Whether a list of characters contains another as a contiguous
subsequence: JavaScript String.prototype.includes. -/
def containsSeq (needle : List Char) : List Char → Bool
  | [] => needle.isEmpty
  | c :: rest => needle.isPrefixOf (c :: rest) || containsSeq needle rest

/-! ## extractPoMetadata (xls-merger.js lines 258-298) -/

/-- The six metadata fields scraped from the fixed anchor rows. Each field
holds the cell found next to its label, already defaulted through the
nextCell-or-empty-string idiom; fields start as the empty string. -/
structure PoMetadata where
  poNumber : Cell
  category : Cell
  orderDate : Cell
  poExpiry : Cell
  supplierName : Cell
  paymentTerm : Cell
deriving DecidableEq, Repr

/-- The scan of row 1 in extractPoMetadata: for every adjacent pair of
cells, each of the four label tests assigns the following cell (defaulted)
into its field; later occurrences overwrite earlier ones. -/
def scanRow1 : List Cell → PoMetadata → PoMetadata
  | c :: next :: rest, md =>
    let md := if c = Cell.str "PO#" then { md with poNumber := orEmptyStr next } else md
    let md := if c = Cell.str "CATEGORY" then { md with category := orEmptyStr next } else md
    let md := if c = Cell.str "ORDER DATE" then { md with orderDate := orEmptyStr next } else md
    let md := if c = Cell.str "PO Expiry" then { md with poExpiry := orEmptyStr next } else md
    scanRow1 (next :: rest) md
  | _, md => md

/-- First-match-then-break scan of a row for a label, yielding the adjacent
cell: the row-2 (SUPPLIER NAME) and row-6 (CREDIT TERM) loops. -/
def findAdjacent (label : String) : List Cell → Option Cell
  | c :: next :: rest =>
    if c = Cell.str label then some next else findAdjacent label (next :: rest)
  | _ => none

/-- extractPoMetadata: labels in row 1 fill the first four fields, row 2
supplies SUPPLIER NAME, row 6 supplies CREDIT TERM; absent rows behave as
empty rows. -/
def extractPoMetadata (data : Grid) : PoMetadata :=
  let md0 : PoMetadata := ⟨.str "", .str "", .str "", .str "", .str "", .str ""⟩
  let md1 := scanRow1 ((data.get? 1).getD []) md0
  let md2 :=
    match findAdjacent "SUPPLIER NAME" ((data.get? 2).getD []) with
    | some c => { md1 with supplierName := orEmptyStr c }
    | none => md1
  match findAdjacent "CREDIT TERM" ((data.get? 6).getD []) with
  | some c => { md2 with paymentTerm := orEmptyStr c }
  | none => md2

/-! ## flattenPoData (xls-merger.js lines 193-251) -/

/-- The fixed six output metadata headers prepended to every merged table. -/
def metadataHeaders : Row :=
  [.str "PO_Number", .str "Category", .str "Order_Date", .str "PO_Expiry",
   .str "Supplier_Name", .str "Payment_Term"]

/-- The metadataValues array built for each line-item row: every field
passed once more through the or-empty-string default. -/
def metadataValues (md : PoMetadata) : Row :=
  [orEmptyStr md.poNumber, orEmptyStr md.category, orEmptyStr md.orderDate,
   orEmptyStr md.poExpiry, orEmptyStr md.supplierName, orEmptyStr md.paymentTerm]

/-- The sentinel test for the line-item header row: first cell strictly
equal to one of the four label variants. -/
def isSentinelRow (row : Row) : Bool :=
  match row.head? with
  | some (Cell.str s) => s = "S. no." || s = "S.no." || s = "Sno" || s = "S No"
  | _ => false

/-- Index search for the line-item header row with explicit counter. -/
def findSentinelIdxAux : Grid → Nat → Option Nat
  | [], _ => none
  | r :: rs, i => if isSentinelRow r then some i else findSentinelIdxAux rs (i + 1)

/-- Index of the first row passing the sentinel test (the for-loop over
data in flattenPoData), none when the loop exits without a hit. -/
def findSentinelIdx (data : Grid) : Option Nat :=
  findSentinelIdxAux data 0

/-- The first-cell test of the line-item loop: typeof number, or a string
whose trim matches the anchored digits regex. -/
def isLineItemFirst : Cell → Bool
  | .num _ => true
  | .str s => !(jsTrim s.toList).isEmpty && (jsTrim s.toList).all Char.isDigit
  | .empty => false

/-- The terminal-marker test of the line-item loop: String(firstCell)
contains Total or Important. -/
def containsMarker (c : Cell) : Bool :=
  containsSeq "Total".toList c.toJsString.toList ||
  containsSeq "Important".toList c.toJsString.toList

/-- The line-item extraction loop of flattenPoData, run on the rows after
the header row: empty rows are skipped, a first cell passing the numeric
test emits metadataValues ++ row, a truthy marker cell stops the scan,
anything else is skipped. The metadataValues list is the same for every
row, so it is passed in once. -/
def scanItems (mv : Row) : List Row → List Row
  | [] => []
  | row :: rest =>
    if row.isEmpty then scanItems mv rest
    else
      let firstCell := (row.head?).getD Cell.empty
      if isLineItemFirst firstCell then (mv ++ row) :: scanItems mv rest
      else if firstCell.truthy && containsMarker firstCell then []
      else scanItems mv rest

/-- Result of flattening one document. -/
structure FlatPo where
  headers : Row
  rows : List Row
deriving DecidableEq, Repr

/-- flattenPoData: empty grids yield nothing; a grid without a sentinel row
is returned as-is (first row as headers, rest as rows); otherwise the
output headers are the six metadata headers followed by the sentinel row,
and the rows are the scanned line items with metadata prepended. -/
def flattenPoData (data : Grid) : FlatPo :=
  if data.isEmpty then ⟨[], []⟩
  else
    let metadata := extractPoMetadata data
    match findSentinelIdx data with
    | none => ⟨(data.head?).getD [], data.tail⟩
    | some i =>
      let lineItemHeaders := (data.get? i).getD []
      ⟨metadataHeaders ++ lineItemHeaders,
       scanItems (metadataValues metadata) (data.drop (i + 1))⟩

/-! ## flattenAndMergePoFiles (xls-merger.js lines 105-172)

Each input file is modelled by an Option Grid: none stands for a file on
which XLSX.readFile threw (the per-file try/catch logs and skips it). -/

/-- The accumulation loop of flattenAndMergePoFiles: the state is the
captured output header row (if any) and the rows gathered so far; the
first file yielding nonempty headers contributes the single header row. -/
def mergeLoop : List (Option Grid) → Option Row → List Row → List Row
  | [], _, acc => acc
  | file :: rest, outputHeaders, acc =>
    match file with
    | none => mergeLoop rest outputHeaders acc
    | some data =>
      if data.isEmpty then mergeLoop rest outputHeaders acc
      else
        let fd := flattenPoData data
        if outputHeaders.isNone && !fd.headers.isEmpty then
          mergeLoop rest (some fd.headers) ((acc ++ [fd.headers]) ++ fd.rows)
        else
          mergeLoop rest outputHeaders (acc ++ fd.rows)

/-- Whether an Except value is the error case. -/
def isErr : Except String (List Row) → Bool
  | .error _ => true
  | .ok _ => false

/-- flattenAndMergePoFiles: throws on an empty file list, accumulates via
mergeLoop, throws when nothing at all was accumulated, and otherwise
writes (returns) the accumulated table. -/
def flattenAndMergePoFiles (files : List (Option Grid)) : Except String (List Row) :=
  if files.isEmpty then .error "No files provided to flatten and merge"
  else
    let allRows := mergeLoop files none []
    if allRows.isEmpty then .error "No data found in any of the files"
    else .ok allRows

/-! ## hasNextPage (download-po.js lines 223-328)

The three pagination regexes are embedded as scanners over the character
list of the page text. Each regex is anchored at every start position in
turn (leftmost match, as String.prototype.match does); for these patterns
the greedy no-backtracking reading is equivalent because the digit,
whitespace and letter character classes are pairwise disjoint. -/

/-- Read one-or-more digits (the regex digits class), returning their
parseInt value and the rest. -/
def readDigits (cs : List Char) : Option (Nat × List Char) :=
  let ds := cs.takeWhile Char.isDigit
  if ds.isEmpty then none
  else some (ds.foldl (fun a c => a * 10 + (c.toNat - 48)) 0, cs.drop ds.length)

/-- Read one-or-more whitespace characters. -/
def readSpaces1 (cs : List Char) : Option (List Char) :=
  let ss := cs.takeWhile isSpaceChar
  if ss.isEmpty then none else some (cs.drop ss.length)

/-- Read zero-or-more whitespace characters. -/
def skipSpaces (cs : List Char) : List Char :=
  cs.dropWhile isSpaceChar

/-- Read a literal case-insensitively (the regex i flag). -/
def readLitCI (lit : List Char) : List Char → Option (List Char)
  | cs =>
    match lit, cs with
    | [], rest => some rest
    | _ :: _, [] => none
    | l :: ls, c :: rest => if c.toLower = l.toLower then readLitCI ls rest else none

/-- One anchored attempt of the pattern digits, spaces, of, spaces,
digits, spaces, pages. -/
def matchPagesAt (cs : List Char) : Option (Nat × Nat) := do
  let (a, cs) ← readDigits cs
  let cs ← readSpaces1 cs
  let cs ← readLitCI "of".toList cs
  let cs ← readSpaces1 cs
  let (b, cs) ← readDigits cs
  let cs ← readSpaces1 cs
  let _ ← readLitCI "pages".toList cs
  pure (a, b)

/-- One anchored attempt of the range pattern digits, optional spaces, a
hyphen or en dash, optional spaces, digits, spaces, of, spaces, digits;
yields the second and third captured numbers, the only ones used. -/
def matchRangeAt (cs : List Char) : Option (Nat × Nat) := do
  let (_, cs) ← readDigits cs
  let cs := skipSpaces cs
  match cs with
  | c :: cs =>
    if c = '-' || c = '–' then do
      let cs := skipSpaces cs
      let (b, cs) ← readDigits cs
      let cs ← readSpaces1 cs
      let cs ← readLitCI "of".toList cs
      let cs ← readSpaces1 cs
      let (c3, _) ← readDigits cs
      pure (b, c3)
    else none
  | [] => none

/-- One anchored attempt of the pattern Page, spaces, digits, spaces, of,
spaces, digits. -/
def matchPageAt (cs : List Char) : Option (Nat × Nat) := do
  let cs ← readLitCI "Page".toList cs
  let cs ← readSpaces1 cs
  let (a, cs) ← readDigits cs
  let cs ← readSpaces1 cs
  let cs ← readLitCI "of".toList cs
  let cs ← readSpaces1 cs
  let (b, _) ← readDigits cs
  pure (a, b)

/-- Leftmost match: try the anchored pattern at each successive start
position of the text. -/
def findFirst (f : List Char → Option (Nat × Nat)) : List Char → Option (Nat × Nat)
  | [] => none
  | c :: rest =>
    match f (c :: rest) with
    | some v => some v
    | none => findFirst f rest

/-- The pattern cascade of hasNextPage over the page body text: the
X-of-Y-pages pattern returns on both outcomes, the A-B-of-C range pattern
returns on both outcomes, the Page-X-of-Y pattern returns only the true
outcome and otherwise falls through to the button fallback (none). -/
def hasNextPageText (text : String) : Option Bool :=
  let cs := text.toList
  match findFirst matchPagesAt cs with
  | some (cur, tot) => some (decide (cur < tot))
  | none =>
    match findFirst matchRangeAt cs with
    | some (endItem, totalItems) => some (decide (endItem < totalItems))
    | none =>
      match findFirst matchPageAt cs with
      | some (cur, tot) => if cur < tot then some true else none
      | none => none

/-- hasNextPage: the text patterns decide when one of them resolves;
otherwise the result is the outcome of the next-button selector fallback,
passed in as the observed environment value. -/
def hasNextPage (text : String) (fallbackButton : Bool) : Bool :=
  (hasNextPageText text).getD fallbackButton

/-! ## goToNextPage (download-po.js lines 334-472)

The fingerprint captured before any click (getFirstRowPONumber) and the
fingerprint observed at each of the ten one-second polls are environment
inputs; clicked records whether any of the four interaction approaches
found a visible, enabled next-page control and clicked it. -/

/-- One poll of verifyContentChanged: the freshly read fingerprint must be
non-null, truthy, and different from the fingerprint captured before the
click. -/
def pollChanged (poBefore : Option String) (poAfter : Option String) : Bool :=
  match poAfter with
  | some s => decide (s ≠ "" ∧ some s ≠ poBefore)
  | none => false

/-- verifyContentChanged: up to ten polls, succeeding as soon as one shows
a changed fingerprint. -/
def verifyContentChanged (poBefore : Option String) (poll : Nat → Option String) : Bool :=
  (List.range 10).any fun i => pollChanged poBefore (poll i)

/-- goToNextPage: when no approach clicked anything the function falls off
the end and returns false; after a click the result is exactly the
verification outcome. -/
def goToNextPage (poBefore : Option String) (clicked : Bool)
    (poll : Nat → Option String) : Bool :=
  if clicked then verifyContentChanged poBefore poll else false

/-! ## downloadPOsFromCurrentPage and downloadAllPOsAcrossPages
(download-po.js lines 478-541 and 549-709)

A page is modelled by the list of its data rows (after the header
pseudo-row adjustment), each row carrying whether its download attempt
succeeds (download button found, transfer completed, file saved), plus the
observed outcome of goToNextPage after the page. hasNextPage is true
exactly while further pages remain in the environment list. The remaining
budget is an Option Nat, none standing for the Infinity used when
maxOrders is 0. -/

structure PageSpec where
  rows : List Bool
  goNext : Bool
deriving DecidableEq, Repr

/-- downloadPOsFromCurrentPage: attempts min(rowCount, remaining) rows in
order (all rows when the budget is Infinity) and returns the number of
successful downloads together with the number of rows attempted. -/
def downloadPOsFromCurrentPage (rows : List Bool) (remaining : Option Nat) : Nat × Nat :=
  let actualRowCount :=
    match remaining with
    | none => rows.length
    | some r => min rows.length r
  (((rows.take actualRowCount).filter (fun b => b)).length, actualRowCount)

/-- The while-true loop of downloadAllPOsAcrossPages: stop when the limit
is already met, process the current page with the remaining budget, stop
when the limit is now met, when no next page exists, or when the page
transition fails; the returned pair is the total number of downloads and
the list of per-page attempted-row counts. -/
def downloadAllAux (maxOrders : Nat) : List PageSpec → Nat → Nat × List Nat
  | [], downloaded => (downloaded, [])
  | p :: rest, downloaded =>
    if 0 < maxOrders ∧ maxOrders ≤ downloaded then (downloaded, [])
    else
      let pr := downloadPOsFromCurrentPage p.rows
        (if 0 < maxOrders then some (maxOrders - downloaded) else none)
      if 0 < maxOrders ∧ maxOrders ≤ downloaded + pr.1 then (downloaded + pr.1, [pr.2])
      else if rest.isEmpty then (downloaded + pr.1, [pr.2])
      else if p.goNext = false then (downloaded + pr.1, [pr.2])
      else
        ((downloadAllAux maxOrders rest (downloaded + pr.1)).1,
         pr.2 :: (downloadAllAux maxOrders rest (downloaded + pr.1)).2)

/-- downloadAllPOsAcrossPages, started on the first page with zero
downloads so far. -/
def downloadAllPOsAcrossPages (maxOrders : Nat) (pages : List PageSpec) : Nat × List Nat :=
  downloadAllAux maxOrders pages 0

/-! ## run (download-po.js lines 40-68)

After downloadAllPOsAcrossPages, run() returns early with only a console
warning when nothing was downloaded; otherwise it calls combineFiles,
whose flattenAndMergePoFiles may throw and fail the task. -/

/-- Observable outcome of the post-download part of run(). -/
inductive RunOutcome where
  | noFilesReturn
  | completed (table : List Row)
  | failed (msg : String)
deriving DecidableEq, Repr

/-- Whether the outcome is the raised-error case. -/
def raisedError : RunOutcome → Bool
  | .failed _ => true
  | _ => false

/-- The merge stage of run(): each downloaded artifact is carried as its
parsed grid (none when unreadable). -/
def runMergeStage (downloadedFiles : List (Option Grid)) : RunOutcome :=
  if downloadedFiles.length = 0 then .noFilesReturn
  else
    match flattenAndMergePoFiles downloadedFiles with
    | .ok table => .completed table
    | .error e => .failed e

/-! ## Derived observers and concrete inputs used by the theorems -/

/-- The row predicate actually selecting line items in the scan loop. -/
def isLineItemRow (row : Row) : Bool :=
  isLineItemFirst ((row.head?).getD Cell.empty)

/-- The row predicate on which the scan loop stops: a first cell that
fails the numeric test, is truthy, and renders to a string containing a
terminal marker. -/
def isMarkerRow (row : Row) : Bool :=
  let c := (row.head?).getD Cell.empty
  !isLineItemFirst c && c.truthy && containsMarker c

/-- The header row of the accumulated merged table, when any. -/
def mergedHeadRow (files : List (Option Grid)) : Option Row :=
  (mergeLoop files none []).head?

/-- Modelled from the spec: a first cell holding a positive integer,
written as a number or as an all-digit string (the qualification the spec
claims for line-item rows). -/
def specPositiveIntFirst : Cell → Bool
  | .num n => decide (0 < n)
  | .str s =>
    !(jsTrim s.toList).isEmpty && (jsTrim s.toList).all Char.isDigit &&
      decide (0 < (jsTrim s.toList).foldl (fun a c => a * 10 + (c.toNat - 48)) 0)
  | .empty => false

/-- A document whose line-item header set is S. no., A. -/
def exampleDocA : Grid :=
  [[Cell.str "S. no.", Cell.str "A"], [Cell.num 1, Cell.str "x"]]

/-- A document whose line-item header set is S. no., B. -/
def exampleDocB : Grid :=
  [[Cell.str "S. no.", Cell.str "B"], [Cell.num 1, Cell.str "y"]]

/-- A document with a three-column line-item header row but a two-cell
line-item row. -/
def wideDoc : Grid :=
  [[Cell.str "S. no.", Cell.str "A", Cell.str "B"], [Cell.num 1, Cell.str "x"]]

/-- The single data row wideDoc produces. -/
def wideDocRow : Row :=
  [Cell.str "", Cell.str "", Cell.str "", Cell.str "", Cell.str "",
   Cell.str "", Cell.num 1, Cell.str "x"]

/-- A document holding only the line-item header row: zero data rows
survive. -/
def headerOnlyDoc : Grid := [[Cell.str "S. no.", Cell.str "Qty"]]

/-- A document whose only candidate line-item row has the number 0 in its
first cell. -/
def zeroRowDoc : Grid :=
  [[Cell.str "S. no.", Cell.str "Q"], [Cell.num 0, Cell.str "x"]]

/-- A document with one line item, then a Total marker row, then a trailer
row that would qualify numerically. -/
def markerDoc : Grid :=
  [[Cell.str "S. no.", Cell.str "Q"], [Cell.num 1, Cell.str "x"],
   [Cell.str "Total", Cell.num 5], [Cell.num 2, Cell.str "y"]]

/-- A grid with no sentinel row anywhere. -/
def plainDoc : Grid :=
  [[Cell.str "Name", Cell.str "Qty"], [Cell.str "a", Cell.num 2]]

/-- Three pages of five rows each, every download succeeding, every page
transition verified. -/
def limitPages : List PageSpec :=
  List.replicate 3 ⟨List.replicate 5 true, true⟩

/-- Three pages where the first row of page two fails to download. -/
def failurePages : List PageSpec :=
  [⟨[true, true], true⟩, ⟨[false, true], true⟩, ⟨[true], true⟩]

/-! ## Helper lemmas -/

/-- mergeLoop only ever appends to its accumulator. -/
theorem mergeLoop_acc (files : List (Option Grid)) :
    ∀ oh acc, ∃ t, mergeLoop files oh acc = acc ++ t := by
  induction files with
  | nil => intro oh acc; exact ⟨[], by simp [mergeLoop]⟩
  | cons f rest ih =>
    intro oh acc
    cases f with
    | none => simpa [mergeLoop] using ih oh acc
    | some data =>
      by_cases hd : data.isEmpty
      · simpa [mergeLoop, hd] using ih oh acc
      · cases hcap : (oh.isNone && !(flattenPoData data).headers.isEmpty) with
        | true =>
          obtain ⟨t, ht⟩ := ih (some (flattenPoData data).headers)
            ((acc ++ [(flattenPoData data).headers]) ++ (flattenPoData data).rows)
          exact ⟨[(flattenPoData data).headers] ++ (flattenPoData data).rows ++ t,
            by simp [mergeLoop, hd, hcap]; simpa using ht⟩
        | false =>
          obtain ⟨t, ht⟩ := ih oh (acc ++ (flattenPoData data).rows)
          exact ⟨(flattenPoData data).rows ++ t, by simp [mergeLoop, hd, hcap, ht]⟩

/-- A grid with a found sentinel row is nonempty. -/
theorem isEmpty_false_of_sentinel (g : Grid) (i : Nat)
    (h : findSentinelIdx g = some i) : g.isEmpty = false := by
  cases g with
  | nil => simp [findSentinelIdx, findSentinelIdxAux] at h
  | cons r rs => rfl

/-- The headers flattenPoData produces when the sentinel row is found. -/
theorem flattenPoData_headers_of_sentinel (g : Grid) (i : Nat)
    (hs : findSentinelIdx g = some i) :
    (flattenPoData g).headers = metadataHeaders ++ (g.get? i).getD [] := by
  have hne := isEmpty_false_of_sentinel g i hs
  simp [flattenPoData, hne, hs]

/-- The rows flattenPoData produces when the sentinel row is found. -/
theorem flattenPoData_rows_of_sentinel (g : Grid) (i : Nat)
    (hs : findSentinelIdx g = some i) :
    (flattenPoData g).rows
      = scanItems (metadataValues (extractPoMetadata g)) (g.drop (i + 1)) := by
  have hne := isEmpty_false_of_sentinel g i hs
  simp [flattenPoData, hne, hs]

/-- The scan loop emits exactly the line-item rows preceding the first
marker row, each with the metadata values prepended. -/
theorem scanItems_eq (mv : Row) :
    ∀ rows : List Row,
      scanItems mv rows
        = ((rows.takeWhile fun r => !isMarkerRow r).filter isLineItemRow).map
            (fun r => mv ++ r) := by
  intro rows
  induction rows with
  | nil => rfl
  | cons row rest ih =>
    cases row with
    | nil =>
      have hm : isMarkerRow [] = false := rfl
      have hl : isLineItemRow [] = false := rfl
      simp [scanItems, hm, hl, ih]
    | cons hd tl =>
      have hne : (hd :: tl : Row).isEmpty = false := rfl
      by_cases hli : isLineItemFirst hd = true
      · have hm : isMarkerRow (hd :: tl) = false := by
          simp [isMarkerRow, hli]
        have hl : isLineItemRow (hd :: tl) = true := by
          simp [isLineItemRow, hli]
        simp [scanItems, hne, hli, hm, hl, ih]
      · have hli' : isLineItemFirst hd = false := by
          cases h : isLineItemFirst hd
          · rfl
          · exact absurd h hli
        by_cases hmk : (hd.truthy && containsMarker hd) = true
        · have hm : isMarkerRow (hd :: tl) = true := by
            simp [isMarkerRow, hli', hmk]
          simp [scanItems, hne, hli', hmk, hm]
        · have hmk' : (hd.truthy && containsMarker hd) = false := by
            cases h : (hd.truthy && containsMarker hd)
            · rfl
            · exact absurd h hmk
          have hm : isMarkerRow (hd :: tl) = false := by
            simp [isMarkerRow, hli', hmk']
          have hl : isLineItemRow (hd :: tl) = false := by
            simp [isLineItemRow, hli']
          simp [scanItems, hne, hli', hmk', hm, hl, ih]

/-- Full characterisation of the rows of a flattened sentinel document,
shared by several theorems below. -/
theorem flattenPoData_rows_char (g : Grid) (i : Nat)
    (hs : findSentinelIdx g = some i) :
    (flattenPoData g).rows
      = (((g.drop (i + 1)).takeWhile fun r => !isMarkerRow r).filter isLineItemRow).map
          (fun r => metadataValues (extractPoMetadata g) ++ r) := by
  rw [flattenPoData_rows_of_sentinel g i hs, scanItems_eq]

/-! ## Claim theorems: merger -/

/-- C1 counterexample: merging a document with line-item headers S. no., A
and one with S. no., B yields an output header row holding only the first
document's headers; the first-seen union the claim predicts (S. no., A, B)
is not produced. -/
theorem headerRow_not_union_cex :
    mergedHeadRow [some exampleDocA, some exampleDocB]
        = some (metadataHeaders ++ [Cell.str "S. no.", Cell.str "A"]) ∧
      metadataHeaders ++ [Cell.str "S. no.", Cell.str "A"]
        ≠ metadataHeaders ++ [Cell.str "S. no.", Cell.str "A", Cell.str "B"] := by
  exact ⟨rfl, by decide⟩

/-- C1 amended: the header row of the merged output equals the six fixed
metadata headers followed by the line-item header row of the first
document that yields nonempty headers; header sets of later documents are
ignored and never unioned in. -/
theorem headerRow_from_first_document (d : Grid) (rest : List (Option Grid)) (i : Nat)
    (hs : findSentinelIdx d = some i) :
    ∃ t, flattenAndMergePoFiles (some d :: rest)
        = .ok ((metadataHeaders ++ (d.get? i).getD []) :: t) := by
  have hdne : d.isEmpty = false := isEmpty_false_of_sentinel d i hs
  have hh := flattenPoData_headers_of_sentinel d i hs
  have hcap : ((none : Option Row).isNone && !(flattenPoData d).headers.isEmpty) = true := by
    simp [hh, metadataHeaders]
  obtain ⟨t, ht⟩ := mergeLoop_acc rest (some (flattenPoData d).headers)
    (([] ++ [(flattenPoData d).headers]) ++ (flattenPoData d).rows)
  have hne2 : (flattenPoData d).headers ≠ [] := by
    simp [hh, metadataHeaders]
  have hstep : mergeLoop (some d :: rest) none []
      = (flattenPoData d).headers :: ((flattenPoData d).rows ++ t) := by
    simp [mergeLoop, hdne, hcap, hne2]
    simpa using ht
  refine ⟨(flattenPoData d).rows ++ t, ?_⟩
  simp [flattenAndMergePoFiles, hstep, hh]

/-- C1 witness: the amended theorem applied to the two concrete documents
of the counterexample. -/
theorem headerRow_from_first_document_witness :
    findSentinelIdx exampleDocA = some 0 ∧
      ∃ t, flattenAndMergePoFiles [some exampleDocA, some exampleDocB]
        = .ok ((metadataHeaders ++ (exampleDocA.get? 0).getD []) :: t) :=
  ⟨by decide, headerRow_from_first_document exampleDocA [some exampleDocB] 0 (by decide)⟩

/-- C2 counterexample: a document whose line-item header row has three
cells but whose line-item row has two produces a merged table whose data
row is one cell shorter than its header row. -/
theorem row_width_mismatch_cex :
    flattenAndMergePoFiles [some wideDoc]
        = .ok [metadataHeaders ++ [Cell.str "S. no.", Cell.str "A", Cell.str "B"], wideDocRow] ∧
      wideDocRow.length
        ≠ (metadataHeaders ++ [Cell.str "S. no.", Cell.str "A", Cell.str "B"]).length := by
  exact ⟨rfl, by decide⟩

/-- C2 amended: every data row a sentinel document contributes is the six
metadata values followed by its source row unchanged, so its width is six
plus the width of that source row, not the width of the header row. -/
theorem row_width_six_plus_source (g : Grid) (i : Nat)
    (hs : findSentinelIdx g = some i) :
    ∀ r ∈ (flattenPoData g).rows, ∃ src ∈ g.drop (i + 1),
      r = metadataValues (extractPoMetadata g) ++ src ∧ r.length = 6 + src.length := by
  intro r hr
  rw [flattenPoData_rows_char g i hs] at hr
  obtain ⟨src, hsrc, rfl⟩ := List.mem_map.mp hr
  have h1 : src ∈ (g.drop (i + 1)).takeWhile fun r => !isMarkerRow r :=
    List.mem_of_mem_filter hsrc
  have h2 : src ∈ g.drop (i + 1) := (List.takeWhile_sublist _).mem h1
  exact ⟨src, h2, rfl, by simp [metadataValues]; omega⟩

/-- C2 witness: the amended theorem applied to the counterexample document
and its single emitted row. -/
theorem row_width_six_plus_source_witness :
    findSentinelIdx wideDoc = some 0 ∧
      wideDocRow ∈ (flattenPoData wideDoc).rows ∧
      ∃ src ∈ wideDoc.drop 1, wideDocRow = metadataValues (extractPoMetadata wideDoc) ++ src ∧
        wideDocRow.length = 6 + src.length :=
  ⟨by decide, by decide,
    row_width_six_plus_source wideDoc 0 (by decide) wideDocRow (by decide)⟩

/-- C3 counterexample: a document holding only the line-item header row
leaves zero data rows, yet the merge returns the written header-only table
and raises no error. -/
theorem headerOnly_written_without_error_cex :
    isErr (flattenAndMergePoFiles [some headerOnlyDoc]) = false ∧
      flattenAndMergePoFiles [some headerOnlyDoc]
        = .ok [metadataHeaders ++ [Cell.str "S. no.", Cell.str "Qty"]] := by
  exact ⟨rfl, rfl⟩

/-- C3 amended: flattenAndMergePoFiles raises an error exactly when the
input list is empty or the accumulation produced no rows at all, header
row included; when a header row was captured but no data rows survive, the
header-only table is still written. -/
theorem merge_error_iff_nothing_accumulated :
    ∀ files : List (Option Grid),
      isErr (flattenAndMergePoFiles files) = true
        ↔ (files = [] ∨ mergeLoop files none [] = []) := by
  intro files
  cases files with
  | nil => simp [flattenAndMergePoFiles, isErr]
  | cons f rest =>
    by_cases h : mergeLoop (f :: rest) none [] = []
    · simp [flattenAndMergePoFiles, h, isErr]
    · have h' : (mergeLoop (f :: rest) none []).isEmpty = false := by
        cases hm : mergeLoop (f :: rest) none []
        · exact absurd hm h
        · rfl
      simp [flattenAndMergePoFiles, h', isErr, h]

/-- C4 counterexample: with zero downloaded artifacts the run returns the
early warning outcome; no error is raised. -/
theorem zero_downloads_no_error_cex :
    raisedError (runMergeStage []) = false ∧
      runMergeStage [] = RunOutcome.noFilesReturn := by
  exact ⟨rfl, rfl⟩

/-- C4 amended: when a run downloads zero artifacts it logs a warning and
returns normally before invoking the merge writer: no output is produced
and no error is raised to the caller. -/
theorem zero_downloads_early_return : runMergeStage [] = RunOutcome.noFilesReturn := rfl

/-- C9 counterexample: a row whose first cell is the number 0 is emitted
as a data row although 0 is not a positive integer: no row of the document
passes the positive-integer qualification the claim states, yet one row is
produced. -/
theorem zero_first_cell_emitted_cex :
    ((flattenPoData zeroRowDoc).rows).length = 1 ∧
      ((zeroRowDoc.drop 1).filter fun r =>
        specPositiveIntFirst ((r.head?).getD Cell.empty)).length = 0 := by
  exact ⟨rfl, rfl⟩

/-- C9 amended: for a document with a line-item header row, the emitted
data rows are exactly the rows after the header row whose first cell is a
number of any value or an all-digit string, restricted to the prefix
before the first marker row (a truthy, non-numeric first cell containing
Total or Important); each is emitted as the six metadata values followed
by the source row. -/
theorem lineItem_rows_exact (g : Grid) (i : Nat)
    (hs : findSentinelIdx g = some i) :
    (flattenPoData g).rows
      = (((g.drop (i + 1)).takeWhile fun r => !isMarkerRow r).filter isLineItemRow).map
          (fun r => metadataValues (extractPoMetadata g) ++ r) :=
  flattenPoData_rows_char g i hs

/-- C9 witness: the amended theorem applied to a document with one line
item, a Total marker row, and a numeric trailer row after the marker. -/
theorem lineItem_rows_exact_witness :
    findSentinelIdx markerDoc = some 0 ∧
      (flattenPoData markerDoc).rows
        = (((markerDoc.drop 1).takeWhile fun r => !isMarkerRow r).filter isLineItemRow).map
            (fun r => metadataValues (extractPoMetadata markerDoc) ++ r) :=
  ⟨by decide, lineItem_rows_exact markerDoc 0 (by decide)⟩

/-- C10: a nonempty grid without any sentinel first cell is not skipped:
its first row is returned as the headers and all remaining rows unchanged
as the data rows, with no metadata columns prepended. -/
theorem no_sentinel_returns_grid_unchanged (r : Row) (rs : List Row)
    (h : ∀ row ∈ r :: rs, isSentinelRow row = false) :
    flattenPoData (r :: rs) = ⟨r, rs⟩ := by
  have haux : ∀ (l : Grid), (∀ row ∈ l, isSentinelRow row = false) →
      ∀ i, findSentinelIdxAux l i = none := by
    intro l
    induction l with
    | nil => intro _ i; rfl
    | cons a as ih =>
      intro hl i
      have ha : isSentinelRow a = false := hl a (by simp)
      simp only [findSentinelIdxAux, ha, Bool.false_eq_true, if_false]
      exact ih (fun row hm => hl row (by simp [hm])) (i + 1)
  have hfind : findSentinelIdx (r :: rs) = none := haux _ h 0
  simp [flattenPoData, hfind]

/-- C10 witness: the theorem applied to a concrete sentinel-free grid. -/
theorem no_sentinel_returns_grid_unchanged_witness :
    (∀ row ∈ plainDoc, isSentinelRow row = false) ∧
      flattenPoData plainDoc = ⟨[Cell.str "Name", Cell.str "Qty"], [[Cell.str "a", Cell.num 2]]⟩ :=
  ⟨by decide,
    no_sentinel_returns_grid_unchanged [Cell.str "Name", Cell.str "Qty"]
      [[Cell.str "a", Cell.num 2]] (by decide)⟩

/-! ## Claim theorems: pagination and downloads -/

/-- C5: the range pattern decides pagination from the page text: with the
text Showing 1-50 of 50 hasNextPage returns false and with Showing 1-50 of
234 it returns true, whatever the next-button fallback would have
reported. -/
theorem hasNextPage_range_pattern :
    ∀ fallbackButton : Bool,
      hasNextPage "Showing 1-50 of 50" fallbackButton = false ∧
        hasNextPage "Showing 1-50 of 234" fallbackButton = true :=
  fun _ => ⟨rfl, rfl⟩

/-- C8: goToNextPage returns true exactly when a next-page control was
found and clicked and one of the ten bounded polls observed a non-null,
nonempty fingerprint different from the fingerprint captured before the
click; in every other case, including when nothing clickable was found, it
returns false. -/
theorem goToNextPage_true_iff_content_changed :
    ∀ (poBefore : Option String) (clicked : Bool) (poll : Nat → Option String),
      goToNextPage poBefore clicked poll = true
        ↔ (clicked = true ∧
            ∃ i, i < 10 ∧ ∃ s, poll i = some s ∧ s ≠ "" ∧ some s ≠ poBefore) := by
  intro poBefore clicked poll
  have hpoll : ∀ pa, pollChanged poBefore pa = true
      ↔ ∃ s, pa = some s ∧ s ≠ "" ∧ some s ≠ poBefore := by
    intro pa
    cases pa <;> simp [pollChanged]
  cases clicked with
  | false => simp [goToNextPage]
  | true =>
    simp [goToNextPage, verifyContentChanged, List.any_eq_true, List.mem_range, hpoll]

/-- Helper: the per-page download result under a finite positive budget,
when every row on the page succeeds. -/
theorem downloadPage_all_success (rows : List Bool) (r : Nat)
    (hrows : ∀ b ∈ rows, b = true) :
    (downloadPOsFromCurrentPage rows (some r)).1 = min rows.length r ∧
      (downloadPOsFromCurrentPage rows (some r)).2 = min rows.length r := by
  refine ⟨?_, rfl⟩
  have hall : ∀ b ∈ rows.take (min rows.length r), b = true :=
    fun b hb => hrows b (List.take_subset _ _ hb)
  simp only [downloadPOsFromCurrentPage]
  rw [List.filter_eq_self.mpr (by simpa using hall), List.length_take]
  exact Nat.min_eq_left (Nat.min_le_left _ _)

/-- Helper: with a positive limit not yet reached, fully successful rows,
verified transitions, and enough rows remaining across the pages, the loop
ends with exactly the limit downloaded and exactly the missing number of
rows attempted. -/
theorem downloadAllAux_limit (limit : Nat) (hpos : 0 < limit) :
    ∀ pages : List PageSpec, ∀ downloaded : Nat,
      downloaded < limit →
      (∀ p ∈ pages, (∀ b ∈ p.rows, b = true) ∧ p.goNext = true) →
      limit - downloaded ≤ (pages.map fun p => p.rows.length).sum →
      (downloadAllAux limit pages downloaded).1 = limit ∧
        ((downloadAllAux limit pages downloaded).2).sum = limit - downloaded := by
  intro pages
  induction pages with
  | nil =>
    intro downloaded hlt _ hsum
    simp only [List.map_nil, List.sum_nil] at hsum
    omega
  | cons p rest ih =>
    intro downloaded hlt hp hsum
    have hnot : ¬ (0 < limit ∧ limit ≤ downloaded) := by omega
    have hrows : ∀ b ∈ p.rows, b = true := (hp p (by simp)).1
    have hnav : p.goNext = true := (hp p (by simp)).2
    obtain ⟨hpage1, hpage2⟩ := downloadPage_all_success p.rows (limit - downloaded) hrows
    simp only [List.map_cons, List.sum_cons] at hsum
    have hminle : min p.rows.length (limit - downloaded) ≤ limit - downloaded :=
      Nat.min_le_right _ _
    simp only [downloadAllAux]
    rw [if_neg hnot, if_pos hpos]
    by_cases hdone :
        limit ≤ downloaded + (downloadPOsFromCurrentPage p.rows (some (limit - downloaded))).1
    · rw [if_pos ⟨hpos, hdone⟩]
      dsimp only
      rw [hpage1] at hdone ⊢
      rw [hpage2]
      simp only [List.sum_cons, List.sum_nil]
      constructor <;> omega
    · have hdone' : ¬ (0 < limit ∧
          limit ≤ downloaded + (downloadPOsFromCurrentPage p.rows (some (limit - downloaded))).1) :=
        fun hc => hdone hc.2
      rw [if_neg hdone']
      rw [hpage1] at hdone
      have hminchoice := min_choice p.rows.length (limit - downloaded)
      have hlen : min p.rows.length (limit - downloaded) = p.rows.length := by
        rcases hminchoice with h | h
        · exact h
        · omega
      have hrest_ne : rest.isEmpty = false := by
        cases hre : rest with
        | nil =>
          exfalso
          rw [hre] at hsum
          simp only [List.map_nil, List.sum_nil] at hsum
          omega
        | cons a as => rfl
      rw [hrest_ne]
      rw [if_neg (by decide : ¬ (false = true))]
      rw [hnav]
      rw [if_neg (by decide : ¬ (true = false))]
      have hih := ih (downloaded + (downloadPOsFromCurrentPage p.rows (some (limit - downloaded))).1)
        (by rw [hpage1]; omega) (fun q hq => hp q (List.mem_cons_of_mem p hq))
        (by rw [hpage1]; omega)
      dsimp only
      rw [List.sum_cons]
      rw [hpage1] at hih ⊢
      rw [hpage2]
      constructor
      · exact hih.1
      · rw [hih.2]
        omega

/-- C6: with a positive limit, fully successful downloads, verified page
transitions and at least limit rows available across the pages, the loop
halts with exactly limit successful downloads and exactly limit rows
attempted in total (so no further row is attempted although rows and pages
remain), and every page attempts exactly the minimum of its available rows
and the remaining budget, the remaining budget being the limit minus the
downloads made so far. -/
theorem download_limit_exact (limit : Nat) (pages : List PageSpec)
    (hpos : 0 < limit)
    (hp : ∀ p ∈ pages, (∀ b ∈ p.rows, b = true) ∧ p.goNext = true)
    (henough : limit ≤ (pages.map fun p => p.rows.length).sum) :
    (downloadAllPOsAcrossPages limit pages).1 = limit ∧
      ((downloadAllPOsAcrossPages limit pages).2).sum = limit ∧
      ∀ rows r, (downloadPOsFromCurrentPage rows (some r)).2 = min rows.length r := by
  have h := downloadAllAux_limit limit hpos pages 0 hpos hp (by simpa using henough)
  refine ⟨h.1, ?_, fun rows r => rfl⟩
  have := h.2
  simpa using this

/-- C6 witness: limit ten over three pages of five successful rows each:
ten downloads, attempts five plus five, the third page never visited. -/
theorem download_limit_exact_witness :
    0 < 10 ∧ (∀ p ∈ limitPages, (∀ b ∈ p.rows, b = true) ∧ p.goNext = true) ∧
      10 ≤ (limitPages.map fun p => p.rows.length).sum ∧
      (downloadAllPOsAcrossPages 10 limitPages).1 = 10 ∧
      ((downloadAllPOsAcrossPages 10 limitPages).2).sum = 10 :=
  ⟨by decide, by decide, by decide,
    (download_limit_exact 10 limitPages (by decide) (by decide) (by decide)).1,
    (download_limit_exact 10 limitPages (by decide) (by decide) (by decide)).2.1⟩

/-- Helper: with an unbounded budget and verified transitions, every page
is visited and every one of its rows is attempted, whatever the pattern of
per-row failures. -/
theorem downloadAllAux_unbounded :
    ∀ pages : List PageSpec, ∀ downloaded : Nat,
      (∀ p ∈ pages, p.goNext = true) →
      (downloadAllAux 0 pages downloaded).2 = pages.map fun p => p.rows.length := by
  intro pages
  induction pages with
  | nil => intro downloaded _; rfl
  | cons p rest ih =>
    intro downloaded hnav
    have h0 : ¬ ((0 : Nat) < 0 ∧ 0 ≤ downloaded) := by omega
    have h0' : ¬ ((0 : Nat) < 0 ∧
        0 ≤ downloaded + (downloadPOsFromCurrentPage p.rows none).1) := by omega
    have hn : ¬ ((0 : Nat) < 0) := by omega
    have hnavp : p.goNext = true := hnav p (by simp)
    simp only [downloadAllAux]
    rw [if_neg h0, if_neg hn, if_neg h0']
    cases hre : rest with
    | nil =>
      rfl
    | cons a as =>
      rw [if_neg (by simp : ¬ ((a :: as : List PageSpec).isEmpty = true))]
      rw [hnavp]
      rw [if_neg (by decide : ¬ (true = false))]
      have hih := ih (downloaded + (downloadPOsFromCurrentPage p.rows none).1)
        (fun q hq => hnav q (List.mem_cons_of_mem p hq))
      rw [hre] at hih
      dsimp only
      rw [hih]
      rfl

/-- C7: a failure on any single row never aborts the rest: with an
unbounded budget and verified transitions the per-page attempted-row
counts equal the full row counts of every page, independent of which rows
fail, and on any page the number of attempted rows depends only on the row
count and the remaining budget, never on row outcomes. -/
theorem row_failure_does_not_abort (pages : List PageSpec)
    (hnav : ∀ p ∈ pages, p.goNext = true) :
    (downloadAllPOsAcrossPages 0 pages).2 = (pages.map fun p => p.rows.length) ∧
      ∀ (rows : List Bool) (rem : Option Nat),
        (downloadPOsFromCurrentPage rows rem).2
          = match rem with
            | none => rows.length
            | some k => min rows.length k :=
  ⟨downloadAllAux_unbounded pages 0 hnav, fun rows rem => by cases rem <;> rfl⟩

/-- C7 witness: a failing first row on page two of three does not prevent
the second row of page two or the row of page three from being attempted:
all three pages attempt their full row counts. -/
theorem row_failure_does_not_abort_witness :
    (∀ p ∈ failurePages, p.goNext = true) ∧
      (downloadAllPOsAcrossPages 0 failurePages).2 = [2, 2, 1] :=
  ⟨by decide, (row_failure_does_not_abort failurePages (by decide)).1⟩

end Filflo
